import Mathlib

/-!
Verification development for the places REST/NDJSON gateway
(`src/database.js`, `src/routes/places.js`, `src/index.js`).

The JavaScript source is shallowly embedded below: query-string mappings
become functions `String → Option String` (`none` = the JS property being
`undefined`), JS numbers produced by `parseInt`/`parseFloat` become an
explicit sum with a `nan` constructor, and the event-callback wiring of the
streaming endpoint becomes a fold of a handler step over an event list.
-/

namespace MapsApi

/-- A request query / filter object: a partial mapping from string keys to
string values; `none` plays the role of the JS property being `undefined`. -/
abbrev Filters := String → Option String

/-- A JS number as produced by `parseInt` / `parseFloat`: either `NaN`,
a signed infinity, or a finite value (modelled as a rational). -/
inductive JSNum where
  | nan
  | inf (pos : Bool)
  | val (q : ℚ)
deriving DecidableEq

/-- A bound SQL parameter pushed onto the `params` array in
`buildWhereClause` (`src/database.js`): either a string or a JS number. -/
inductive Param where
  | str (s : String)
  | num (x : JSNum)
deriving DecidableEq

/-- JS truthiness of a possibly-undefined string: `undefined` and the empty
string are falsy, every other string is truthy (`if (filters[field])`). -/
def jsTruthy : Option String → Bool
  | some v => v ≠ ""
  | none => false

/-- Numeric value of a hexadecimal digit character. -/
def hexDigitVal (c : Char) : Nat :=
  if '0' ≤ c ∧ c ≤ '9' then c.toNat - '0'.toNat
  else if 'a' ≤ c ∧ c ≤ 'f' then c.toNat - 'a'.toNat + 10
  else if 'A' ≤ c ∧ c ≤ 'F' then c.toNat - 'A'.toNat + 10
  else 0

/-- Is `c` a hexadecimal digit? -/
def isHexDigit (c : Char) : Bool :=
  ('0' ≤ c && c ≤ '9') || ('a' ≤ c && c ≤ 'f') || ('A' ≤ c && c ≤ 'F')

/-- Value of a digit string in the given base. -/
def digitsToNat (base : Nat) (ds : List Char) : Nat :=
  ds.foldl (fun n c => n * base + hexDigitVal c) 0

/-- JS `parseInt(s)` (no explicit radix): skip leading whitespace, optional
sign, auto-detect a `0x`/`0X` hex prefix, then take the longest prefix of
digits; `none` models the `NaN` result when no digit is found. -/
def jsParseInt (s : String) : Option Int :=
  let cs := s.data.dropWhile Char.isWhitespace
  let sgn : Int × List Char :=
    match cs with
    | '-' :: r => (-1, r)
    | '+' :: r => (1, r)
    | _ => (1, cs)
  let ds : Nat × List Char :=
    match sgn.2 with
    | '0' :: c :: r =>
        if c = 'x' ∨ c = 'X' then (16, r.takeWhile isHexDigit)
        else (10, sgn.2.takeWhile Char.isDigit)
    | _ => (10, sgn.2.takeWhile Char.isDigit)
  if ds.2 = [] then none
  else some (sgn.1 * (digitsToNat ds.1 ds.2 : Int))

/-- JS `parseFloat(s)`: skip leading whitespace, optional sign, `Infinity`,
or a decimal literal `digits [. digits] [e [sign] digits]`; `NaN` when no
digit occurs before the exponent part. -/
def jsParseFloat (s : String) : JSNum :=
  let cs := s.data.dropWhile Char.isWhitespace
  let sgn : Bool × List Char :=
    match cs with
    | '-' :: r => (false, r)
    | '+' :: r => (true, r)
    | _ => (true, cs)
  if sgn.2.take 8 = "Infinity".data then JSNum.inf sgn.1
  else
    let ipart := sgn.2.takeWhile Char.isDigit
    let rest1 := sgn.2.dropWhile Char.isDigit
    let fp : List Char × List Char :=
      match rest1 with
      | '.' :: r => (r.takeWhile Char.isDigit, r.dropWhile Char.isDigit)
      | _ => ([], rest1)
    if ipart.isEmpty && fp.1.isEmpty then JSNum.nan
    else
      let mantissa : ℚ :=
        (digitsToNat 10 ipart : ℚ) + (digitsToNat 10 fp.1 : ℚ) / (10 ^ fp.1.length)
      let expVal : Int :=
        match fp.2 with
        | c :: r =>
            if c = 'e' ∨ c = 'E' then
              let es : Int × List Char :=
                match r with
                | '-' :: rr => (-1, rr)
                | '+' :: rr => (1, rr)
                | _ => (1, r)
              let eds := es.2.takeWhile Char.isDigit
              if eds = [] then 0 else es.1 * (digitsToNat 10 eds : Int)
            else 0
        | [] => 0
      JSNum.val ((if sgn.1 then 1 else -1) * mantissa * (10 : ℚ) ^ expVal)

/-- `parseInt(filters.k)` as pushed onto `params` (NaN kept as a value,
exactly as the source pushes it). -/
def intParam (v : String) : Param :=
  Param.num (match jsParseInt v with
    | some n => JSNum.val (n : ℚ)
    | none => JSNum.nan)

/-- `parseFloat(filters.k)` as pushed onto `params`. -/
def floatParam (v : String) : Param :=
  Param.num (jsParseFloat v)

/-- The `equalityFields` array of `buildWhereClause` (`src/database.js`
line 49). Note it contains `county_code`/`county`, not
`country_code`/`country`. -/
def equalityFields : List String :=
  ["city", "state", "type", "county_code", "county", "borough", "place_id"]

/-- Body of the `for (const field of equalityFields)` loop in
`buildWhereClause`: when `filters[field]` is truthy, push `field = ?` onto
`conditions` and the raw value onto `params`. -/
def eqStep (filters : Filters) (acc : List String × List Param) (field : String) :
    List String × List Param :=
  match filters field with
  | some v => if v = "" then acc else (acc.1 ++ [field ++ " = ?"], acc.2 ++ [Param.str v])
  | none => acc

/-- The `conditions` and `params` arrays built by `buildWhereClause`
(`src/database.js` lines 44–91), transliterated stage by stage: the
equality-field loop, the six numeric filters guarded by `!== undefined`,
and the truthiness-guarded `name_contains` LIKE filter. -/
def buildConds (filters : Filters) : List String × List Param :=
  let acc := equalityFields.foldl (eqStep filters) ([], [])
  let acc := match filters "reviews" with
    | some v => (acc.1 ++ ["reviews = ?"], acc.2 ++ [intParam v])
    | none => acc
  let acc := match filters "reviews_min" with
    | some v => (acc.1 ++ ["reviews >= ?"], acc.2 ++ [intParam v])
    | none => acc
  let acc := match filters "reviews_max" with
    | some v => (acc.1 ++ ["reviews <= ?"], acc.2 ++ [intParam v])
    | none => acc
  let acc := match filters "rating" with
    | some v => (acc.1 ++ ["rating = ?"], acc.2 ++ [floatParam v])
    | none => acc
  let acc := match filters "rating_min" with
    | some v => (acc.1 ++ ["rating >= ?"], acc.2 ++ [floatParam v])
    | none => acc
  let acc := match filters "rating_max" with
    | some v => (acc.1 ++ ["rating <= ?"], acc.2 ++ [floatParam v])
    | none => acc
  let acc := match filters "name_contains" with
    | some v => if v = "" then acc
        else (acc.1 ++ ["name LIKE ?"], acc.2 ++ [Param.str ("%" ++ v ++ "%")])
    | none => acc
  acc

/-- `buildWhereClause` (`src/database.js`): returns the WHERE-clause text
(`''` when no condition) together with the ordered bound-parameter list. -/
def buildWhereClause (filters : Filters) : String × List Param :=
  let c := buildConds filters
  (if c.1.length > 0 then "WHERE " ++ String.intercalate " AND " c.1 else "", c.2)

/-- The `filterKeys` array of `extractFilters` (`src/routes/places.js`
lines 22–27). Note it contains `country_code`/`country` where
`buildWhereClause` handles `county_code`/`county`. -/
def filterKeys : List String :=
  ["city", "state", "type", "country_code", "country", "borough", "place_id",
   "reviews", "reviews_min", "reviews_max",
   "rating", "rating_min", "rating_max",
   "name_contains"]

/-- `extractFilters(query)` (`src/routes/places.js`): copies exactly the
allow-listed keys that are present in the query into the filter object. -/
def extractFilters (query : Filters) : Filters :=
  fun k => if k ∈ filterKeys then query k else none

/-- `MAX_LIMIT` (`src/routes/places.js` line 6). -/
def MAX_LIMIT : Int := 10000

/-- `DEFAULT_LIMIT` (`src/routes/places.js` line 7). -/
def DEFAULT_LIMIT : Int := 100

/-- JS `x || d` for a number `x`: both `NaN` (`none`) and `0` are falsy and
fall through to the default. -/
def jsOrNum (x : Option Int) (d : Int) : Int :=
  match x with
  | some n => if n = 0 then d else n
  | none => d

/-- `parseLimit` (`src/routes/places.js` lines 12–15):
`parseInt(limitStr) || DEFAULT_LIMIT`, then `Math.min(Math.max(1, limit),
MAX_LIMIT)`. The argument is `none` when the query carries no `limit`
(JS `parseInt(undefined)` is `NaN`). -/
def parseLimit (limitStr : Option String) : Int :=
  let limit := jsOrNum (limitStr.bind jsParseInt) DEFAULT_LIMIT
  min (max 1 limit) MAX_LIMIT

/-- The fixed 19-column projection shared by `getPlaces` and `streamPlaces`
(`src/database.js`), with whitespace normalized to single spaces. -/
def placesProjection : String :=
  "SELECT id, place_id, name, site, type, phone, full_address, " ++
  "borough, street, city, state, county, county_code, " ++
  "latitude, longitude, rating, reviews, working_hours, about FROM places "

/-- The SQL text assembled by `streamPlaces` (`src/database.js` lines
148–160): projection, WHERE clause from `buildWhereClause`, `ORDER BY id`,
and — only when `limit > 0` — an interpolated `LIMIT` clause. The limit is
`none` when the route computed `NaN` (`parseInt` of a malformed string);
`NaN > 0` is false, so no LIMIT clause is appended then. -/
def streamSql (filters : Filters) (limit : Option Int) : String :=
  placesProjection ++ (buildWhereClause filters).1 ++ " ORDER BY id" ++
    (match limit with
      | some n => if n > 0 then " LIMIT " ++ toString n else ""
      | none => "")

/-! ## Streaming exporter model

`GET /stream` (`src/routes/places.js` lines 106–149) wires callbacks onto
the row stream returned by `streamPlaces` (`src/database.js` lines
144–169). The registered handlers are:
* `data` (route): increment `count`, write `JSON.stringify(row) + '\n'`;
* `end` (database): `connection.release()`; `end` (route): write the
  `_meta` trailer line, `res.end()`;
* `error` (database): `connection.release()`; `error` (route): write the
  `_error` line, `res.end()`;
* `close` on the request (route): `stream.destroy()`.

Node semantics embedded here: a destroyed readable delivers no further
`data`, `end` or `error` events to its listeners, and `destroy()` itself
emits neither `end` nor `error`. -/

/-- A result row, already serialized by `JSON.stringify`. -/
abbrev Row := String

/-- Events observable by the handlers registered on the row stream. -/
inductive StreamEvent where
  | rowData (row : Row)
  | streamEnd
  | streamError (msg : String)
  | clientClose

/-- State accumulated by the registered handlers: the running row counter,
the chunks written to the response, the number of `connection.release()`
calls, whether `res.end()` ran, and whether the stream was destroyed. -/
structure HandlerState where
  count : Nat
  writes : List String
  released : Nat
  resEnded : Bool
  destroyed : Bool
deriving DecidableEq

/-- State before any stream event is delivered. -/
def initialState : HandlerState :=
  { count := 0, writes := [], released := 0, resEnded := false, destroyed := false }

/-- Two hex digits of a byte (used by the JSON string escaper). -/
def hexByte (n : Nat) : String :=
  let d : Nat → Char := fun k => if k < 10 then Char.ofNat ('0'.toNat + k)
    else Char.ofNat ('a'.toNat + (k - 10))
  String.mk [d (n / 16 % 16), d (n % 16)]

/-- `JSON.stringify` escaping of one character. -/
def jsonEscapeChar (c : Char) : String :=
  if c = '"' then "\\\""
  else if c = '\\' then "\\\\"
  else if c = '\n' then "\\n"
  else if c = '\r' then "\\r"
  else if c = '\t' then "\\t"
  else if c.toNat = 8 then "\\b"
  else if c.toNat = 12 then "\\f"
  else if c.toNat < 32 then "\\u00" ++ hexByte c.toNat
  else String.singleton c

/-- `JSON.stringify` of a string value. -/
def jsonString (s : String) : String :=
  "\"" ++ String.join (s.data.map jsonEscapeChar) ++ "\""

/-- `JSON.stringify({ _meta: { total_streamed: n, complete: true } })`. -/
def metaLine (n : Nat) : String :=
  "\x7b\"_meta\":\x7b\"total_streamed\":" ++ toString n ++ ",\"complete\":true\x7d\x7d"

/-- `JSON.stringify({ _error: msg })`. -/
def errorLine (msg : String) : String :=
  "\x7b\"_error\":" ++ jsonString msg ++ "\x7d"

/-- Deliver one event to the handlers registered by the source (see the
section comment above for the line-by-line correspondence). -/
def handleEvent (s : HandlerState) (e : StreamEvent) : HandlerState :=
  if s.destroyed then s
  else match e with
    | .rowData row =>
        { s with count := s.count + 1, writes := s.writes ++ [row ++ "\n"] }
    | .streamEnd =>
        { s with released := s.released + 1,
                 writes := s.writes ++ [metaLine s.count ++ "\n"], resEnded := true }
    | .streamError msg =>
        { s with released := s.released + 1,
                 writes := s.writes ++ [errorLine msg ++ "\n"], resEnded := true }
    | .clientClose => { s with destroyed := true }

/-- Run one export: fold the handlers over the delivered events. -/
def runStream (events : List StreamEvent) : HandlerState :=
  events.foldl handleEvent initialState

/-- COMPLETE terminal state: the row source delivers its rows and then
signals exhaustion. -/
def completeEvents (rows : List Row) : List StreamEvent :=
  rows.map StreamEvent.rowData ++ [StreamEvent.streamEnd]

/-- FAILED terminal state: the row source raises an error after delivering
some rows. -/
def failedEvents (rows : List Row) (msg : String) : List StreamEvent :=
  rows.map StreamEvent.rowData ++ [StreamEvent.streamError msg]

/-- ABORTED terminal state: the consuming transport closes before
exhaustion; the route's `close` handler destroys the stream. -/
def abortEvents (rows : List Row) : List StreamEvent :=
  rows.map StreamEvent.rowData ++ [StreamEvent.clientClose]

/-! ## Statistics aggregator model

`getStats` (`src/database.js` lines 175–208) issues four fixed SQL
aggregations against the `places` table and shapes the result. The table is
modelled as a list of rows projected to the three grouped columns (each
nullable); the SQL semantics of each aggregation is embedded below. -/

/-- A `places` row projected to the columns `getStats` groups by. -/
structure StatsRow where
  city : Option String
  type : Option String
  county_code : Option String
deriving DecidableEq

/-- `WHERE col IS NOT NULL`: the non-null values of a column. -/
def nonNullValues (xs : List (Option String)) : List String :=
  xs.filterMap id

/-- `GROUP BY col` with `COUNT(*)`: one `(value, count)` pair per distinct
non-null value. -/
def groupCounts (xs : List (Option String)) : List (String × Nat) :=
  (nonNullValues xs).dedup.map (fun v => (v, (nonNullValues xs).count v))

/-- `ORDER BY count DESC`: larger counts first. -/
def byCountDesc (a b : String × Nat) : Prop := b.2 ≤ a.2

instance : DecidableRel byCountDesc := fun a b => Nat.decLe b.2 a.2

instance : IsTotal (String × Nat) byCountDesc :=
  ⟨fun a b => (Nat.le_total b.2 a.2).imp id id⟩

instance : IsTrans (String × Nat) byCountDesc :=
  ⟨fun _ _ _ h1 h2 => Nat.le_trans h2 h1⟩

/-- `SELECT col, COUNT(*) ... WHERE col IS NOT NULL GROUP BY col ORDER BY
count DESC LIMIT 10` (ties in some store-chosen order). -/
def topTen (xs : List (Option String)) : List (String × Nat) :=
  (List.insertionSort byCountDesc (groupCounts xs)).take 10

/-- The object returned by `getStats`. Each `top_*` field comes from
`const [x] = await query(...)`: since `query` already returns the unwrapped
row list (it destructures mysql2's `[rows, fields]` itself), this second
array destructuring keeps only the first row of the list; `none` models the
JS `undefined` obtained when the list is empty. -/
structure StatsResult where
  total_places : Nat
  top_cities : Option (String × Nat)
  top_types : Option (String × Nat)
  top_county_codes : Option (String × Nat)

/-- `getStats` (`src/database.js` lines 175–208): the store answers the
COUNT query with one row carrying `table.length`, and the three LIMIT-10
aggregations with the `topTen` row lists; `getStats` array-destructures
each answer, keeping row 0. For the single-row COUNT answer that is the
row carrying the total; for the three aggregation lists it is the top-1
row only. -/
def getStats (table : List StatsRow) : StatsResult :=
  { total_places := table.length
  , top_cities := (topTen (table.map (·.city))).head?
  , top_types := (topTen (table.map (·.type))).head?
  , top_county_codes := (topTen (table.map (·.county_code))).head? }

/-! ## Spec-side predicate order (spec §4.1)

The definitions below follow the words of spec §4.1 rules 1–4: the
equality fields in their listed order, then `reviews`, then
`reviews_min`/`reviews_max`, then `rating`, then `rating_min`/`rating_max`,
then `name_contains`; string fields are included iff present and
non-empty, numeric fields iff present. They are compared with the
source-side `buildConds` by refinement theorems. -/

/-- Spec §4.1 rule 1: the EQ predicate contributed by one equality field. -/
def eqPredSeg (f : Filters) (field : String) : List String :=
  if jsTruthy (f field) then [field ++ " = ?"] else []

/-- Spec §4.1 rule 1: the verbatim bound value of one equality field. -/
def eqParamSeg (f : Filters) (field : String) : List Param :=
  match f field with
  | some v => if v = "" then [] else [Param.str v]
  | none => []

/-- Spec §4.1 rules 2–3: the predicate contributed by one numeric field. -/
def numPredSeg (f : Filters) (key cond : String) : List String :=
  if (f key).isSome then [cond] else []

/-- Spec §4.1 rules 2–3: the parsed bound value of one numeric field. -/
def numParamSeg (f : Filters) (key : String) (mk : String → Param) : List Param :=
  match f key with
  | some v => [mk v]
  | none => []

/-- Spec §4.1 rule 4: the LIKE predicate of `name_contains`. -/
def likePredSeg (f : Filters) : List String :=
  if jsTruthy (f "name_contains") then ["name LIKE ?"] else []

/-- Spec §4.1 rule 4: the `%value%`-wrapped bound value of
`name_contains`. -/
def likeParamSeg (f : Filters) : List Param :=
  match f "name_contains" with
  | some v => if v = "" then [] else [Param.str ("%" ++ v ++ "%")]
  | none => []

/-- The predicate sequence in the fixed order of spec §4.1. -/
def specPredicates (f : Filters) : List String :=
  (equalityFields.map (eqPredSeg f)).flatten
  ++ numPredSeg f "reviews" "reviews = ?"
  ++ numPredSeg f "reviews_min" "reviews >= ?"
  ++ numPredSeg f "reviews_max" "reviews <= ?"
  ++ numPredSeg f "rating" "rating = ?"
  ++ numPredSeg f "rating_min" "rating >= ?"
  ++ numPredSeg f "rating_max" "rating <= ?"
  ++ likePredSeg f

/-- The bound-parameter sequence in the fixed order of spec §4.1. -/
def specParams (f : Filters) : List Param :=
  (equalityFields.map (eqParamSeg f)).flatten
  ++ numParamSeg f "reviews" intParam
  ++ numParamSeg f "reviews_min" intParam
  ++ numParamSeg f "reviews_max" intParam
  ++ numParamSeg f "rating" floatParam
  ++ numParamSeg f "rating_min" floatParam
  ++ numParamSeg f "rating_max" floatParam
  ++ likeParamSeg f

/-- The 14 condition fragments `buildWhereClause` can ever emit. -/
def allowedConds : List String :=
  ["city = ?", "state = ?", "type = ?", "county_code = ?", "county = ?",
   "borough = ?", "place_id = ?",
   "reviews = ?", "reviews >= ?", "reviews <= ?",
   "rating = ?", "rating >= ?", "rating <= ?",
   "name LIKE ?"]

/-- Value-masking: keep each key's presence and emptiness, forget the
content of every non-empty value. -/
def maskFilters (f : Filters) : Filters := fun k =>
  match f k with
  | some v => some (if v = "" then "" else "#")
  | none => none

/-! ## Refinement of `buildConds` against the spec-side order -/

lemma eqStep_append (f : Filters) (c : List String) (p : List Param) (field : String) :
    eqStep f (c, p) field = (c ++ eqPredSeg f field, p ++ eqParamSeg f field) := by
  unfold eqStep eqPredSeg eqParamSeg jsTruthy
  cases f field with
  | none => simp
  | some v => by_cases h : v = "" <;> simp [h]

lemma foldl_eqStep (f : Filters) (fields : List String) (c : List String) (p : List Param) :
    fields.foldl (eqStep f) (c, p) =
      (c ++ (fields.map (eqPredSeg f)).flatten, p ++ (fields.map (eqParamSeg f)).flatten) := by
  induction fields generalizing c p with
  | nil => simp
  | cons a l ih =>
      simp only [List.foldl_cons, eqStep_append, List.map_cons, List.flatten_cons]
      rw [ih]
      simp [List.append_assoc]

/-- The two arrays built by `buildWhereClause` coincide with the spec §4.1
predicate and parameter sequences. -/
lemma buildConds_eq_spec (f : Filters) :
    buildConds f = (specPredicates f, specParams f) := by
  unfold buildConds specPredicates specParams
  rw [foldl_eqStep]
  rcases h1 : f "reviews" with _ | v1 <;>
  rcases h2 : f "reviews_min" with _ | v2 <;>
  rcases h3 : f "reviews_max" with _ | v3 <;>
  rcases h4 : f "rating" with _ | v4 <;>
  rcases h5 : f "rating_min" with _ | v5 <;>
  rcases h6 : f "rating_max" with _ | v6 <;>
  rcases h7 : f "name_contains" with _ | v7 <;>
  simp [numPredSeg, numParamSeg, likePredSeg, likeParamSeg, jsTruthy,
    h1, h2, h3, h4, h5, h6, h7, List.append_assoc] <;>
  by_cases hv : v7 = "" <;> simp [hv, List.append_assoc]

lemma eqPredSeg_length (f : Filters) (field : String) :
    (eqPredSeg f field).length = if jsTruthy (f field) then 1 else 0 := by
  unfold eqPredSeg; split <;> simp

lemma eqParamSeg_length (f : Filters) (field : String) :
    (eqParamSeg f field).length = if jsTruthy (f field) then 1 else 0 := by
  unfold eqParamSeg jsTruthy
  cases f field with
  | none => simp
  | some v => by_cases h : v = "" <;> simp [h]

lemma numPredSeg_length (f : Filters) (key cond : String) :
    (numPredSeg f key cond).length = if (f key).isSome then 1 else 0 := by
  unfold numPredSeg; split <;> simp

lemma numParamSeg_length (f : Filters) (key : String) (mk : String → Param) :
    (numParamSeg f key mk).length = if (f key).isSome then 1 else 0 := by
  unfold numParamSeg; cases f key <;> simp

lemma likePredSeg_length (f : Filters) :
    (likePredSeg f).length = if jsTruthy (f "name_contains") then 1 else 0 := by
  unfold likePredSeg; split <;> simp

lemma likeParamSeg_length (f : Filters) :
    (likeParamSeg f).length = if jsTruthy (f "name_contains") then 1 else 0 := by
  unfold likeParamSeg jsTruthy
  cases f "name_contains" with
  | none => simp
  | some v => by_cases h : v = "" <;> simp [h]

lemma eqFlatten_length (f : Filters) (fields : List String) :
    ((fields.map (eqPredSeg f)).flatten).length =
      ((fields.map (eqParamSeg f)).flatten).length := by
  induction fields with
  | nil => rfl
  | cons a l ih => simp [eqPredSeg_length, eqParamSeg_length, ih]

lemma specPredicates_length (f : Filters) :
    (specPredicates f).length = (specParams f).length := by
  unfold specPredicates specParams
  simp only [List.length_append, eqFlatten_length, numPredSeg_length,
    numParamSeg_length, likePredSeg_length, likeParamSeg_length]

-- sanity checks on the JS parsing primitives
example : jsParseInt "0" = some 0 := by decide
example : jsParseInt "" = none := by decide
example : jsParseInt "abc" = none := by decide
example : jsParseInt "-5" = some (-5) := by decide
example : jsParseInt "999999" = some 999999 := by decide
example : jsParseInt "0x1A" = some 26 := by decide
example : jsParseInt " 42abc" = some 42 := by decide
example : jsParseFloat "4.5" ≠ JSNum.nan := by decide
example : jsParseFloat "abc" = JSNum.nan := by decide

lemma maskFilters_isSome (f : Filters) (k : String) :
    ((maskFilters f) k).isSome = (f k).isSome := by
  unfold maskFilters; cases f k <;> simp

lemma maskFilters_truthy (f : Filters) (k : String) :
    jsTruthy ((maskFilters f) k) = jsTruthy (f k) := by
  unfold maskFilters jsTruthy
  cases f k with
  | none => simp
  | some v => by_cases h : v = "" <;> simp [h]

lemma eqPredSeg_mask (f : Filters) :
    eqPredSeg (maskFilters f) = eqPredSeg f := by
  funext field
  unfold eqPredSeg
  rw [maskFilters_truthy]

lemma specPredicates_mask (f : Filters) :
    specPredicates (maskFilters f) = specPredicates f := by
  simp only [specPredicates, eqPredSeg_mask, numPredSeg, likePredSeg,
    maskFilters_truthy, maskFilters_isSome]

lemma eqPredSeg_mem (f : Filters) (field c : String) (hc : c ∈ eqPredSeg f field) :
    c = field ++ " = ?" := by
  unfold eqPredSeg at hc
  split at hc
  · simpa using hc
  · simp at hc

/-! ## Claim theorems for the filter builder -/

/-- C4: for every filter mapping, the predicate list and the
bound-parameter list built by `buildWhereClause` have equal length, and
the predicates (with their parameters) appear exactly in the fixed order
of spec §4.1: the equality fields in their listed order, then `reviews`,
`reviews_min`/`reviews_max`, `rating`, `rating_min`/`rating_max`, and
finally `name_contains` as a `%value%` LIKE. -/
theorem buildWhereClause_parallel_ordered (f : Filters) :
    (buildConds f).1.length = (buildConds f).2.length ∧
    (buildConds f).1 = specPredicates f ∧
    (buildConds f).2 = specParams f := by
  rw [buildConds_eq_spec]
  exact ⟨specPredicates_length f, rfl, rfl⟩

/-- C2 (amended): the WHERE-clause text produced by `buildWhereClause` —
and hence the streaming SQL text — is invariant under replacing every
supplied filter value by a fixed token that only preserves presence and
emptiness; so user-supplied value content never reaches the SQL text and
only travels in the bound-parameter list. -/
theorem whereText_value_independent (f : Filters) (lim : Option Int) :
    (buildWhereClause (maskFilters f)).1 = (buildWhereClause f).1 ∧
    streamSql (maskFilters f) lim = streamSql f lim := by
  have h : (buildConds (maskFilters f)).1 = (buildConds f).1 := by
    rw [buildConds_eq_spec, buildConds_eq_spec]
    exact specPredicates_mask f
  refine ⟨?_, ?_⟩
  · unfold buildWhereClause
    simp only [h]
  · unfold streamSql buildWhereClause
    simp only [h]

/-- C2 (counterexample): two mappings in which `city` is present in both
— with values `"NY"` and `""` — produce different WHERE-clause texts, so
the text does not depend only on which allow-listed keys are present. -/
theorem whereText_presence_only_cex :
    ((fun k => if k = "city" then some "NY" else none) : Filters) "city" ≠ none ∧
    ((fun k => if k = "city" then some "" else none) : Filters) "city" ≠ none ∧
    (buildWhereClause (fun k => if k = "city" then some "NY" else none)).1 ≠
      (buildWhereClause (fun k => if k = "city" then some "" else none)).1 := by
  refine ⟨by simp, by simp, ?_⟩
  decide

/-- C5: keys outside the allow-lists contribute nothing: the composed
route output depends only on the allow-listed part of the query, and every
condition `buildWhereClause` can emit comes from the fixed set of 14
fragments, so no foreign key ever appears as a column. -/
theorem nonAllowListed_ignored :
    (∀ q1 q2 : Filters, (∀ k ∈ filterKeys, q1 k = q2 k) →
      buildWhereClause (extractFilters q1) = buildWhereClause (extractFilters q2)) ∧
    (∀ f : Filters, ∀ c ∈ (buildConds f).1, c ∈ allowedConds) := by
  constructor
  · intro q1 q2 h
    have he : extractFilters q1 = extractFilters q2 := by
      funext k
      unfold extractFilters
      by_cases hk : k ∈ filterKeys
      · simp [hk, h k hk]
      · simp [hk]
    rw [he]
  · intro f c hc
    rw [buildConds_eq_spec] at hc
    simp only [specPredicates, List.mem_append] at hc
    rcases hc with (((((((hc | hc) | hc) | hc) | hc) | hc) | hc) | hc)
    · simp only [List.mem_flatten, List.mem_map] at hc
      obtain ⟨l, ⟨field, hf, rfl⟩, hcl⟩ := hc
      rw [eqPredSeg_mem f field c hcl]
      fin_cases hf <;> decide
    · unfold numPredSeg at hc
      split at hc <;> simp at hc
      simp [hc, allowedConds]
    · unfold numPredSeg at hc
      split at hc <;> simp at hc
      simp [hc, allowedConds]
    · unfold numPredSeg at hc
      split at hc <;> simp at hc
      simp [hc, allowedConds]
    · unfold numPredSeg at hc
      split at hc <;> simp at hc
      simp [hc, allowedConds]
    · unfold numPredSeg at hc
      split at hc <;> simp at hc
      simp [hc, allowedConds]
    · unfold numPredSeg at hc
      split at hc <;> simp at hc
      simp [hc, allowedConds]
    · unfold likePredSeg at hc
      by_cases hk : jsTruthy (f "name_contains") = true
      · rw [if_pos hk] at hc
        simp at hc
        simp [hc, allowedConds]
      · rw [if_neg hk] at hc
        simp at hc

/-- C5 (witness): a non-allow-listed key carrying SQL text changes
nothing, and a concretely emitted condition is in the fixed set. -/
theorem nonAllowListed_ignored_witness :
    buildWhereClause (extractFilters
        (fun k => if k = "evil_key" then some "1 OR 1=1" else none)) =
      buildWhereClause (extractFilters (fun _ => none)) ∧
    "city = ?" ∈ allowedConds :=
  ⟨nonAllowListed_ignored.1 _ _ (by decide),
   nonAllowListed_ignored.2 (fun k => if k = "city" then some "NY" else none)
     "city = ?" (by decide)⟩

/-- C3 (code evaluation): `country` and `country_code` pass the HTTP
allow-list of `extractFilters`, yet `buildWhereClause` — whose equality
list has `county`/`county_code` instead — emits no predicate and binds no
parameter for them. -/
theorem country_filter_dropped :
    extractFilters (fun k => if k = "country" then some "US" else none) "country"
        = some "US" ∧
    buildWhereClause (extractFilters (fun k => if k = "country" then some "US" else none))
        = ("", []) ∧
    extractFilters (fun k => if k = "country_code" then some "US" else none) "country_code"
        = some "US" ∧
    buildWhereClause (extractFilters (fun k => if k = "country_code" then some "US" else none))
        = ("", []) := by
  refine ⟨by decide, by decide, by decide, by decide⟩

/-! ## Streaming exporter lemmas and claim theorems -/

lemma handleEvent_rowData (s : HandlerState) (h : s.destroyed = false) (r : Row) :
    handleEvent s (.rowData r) =
      { s with count := s.count + 1, writes := s.writes ++ [r ++ "\n"] } := by
  unfold handleEvent
  rw [h]
  simp

lemma foldl_rowData (rows : List Row) (s : HandlerState) (h : s.destroyed = false) :
    (rows.map StreamEvent.rowData).foldl handleEvent s =
      { s with count := s.count + rows.length,
               writes := s.writes ++ rows.map (· ++ "\n") } := by
  induction rows generalizing s with
  | nil => simp
  | cons r rs ih =>
      obtain ⟨cnt, ws, rel, re, des⟩ := s
      simp only at h
      subst h
      simp only [List.map_cons, List.foldl_cons]
      rw [handleEvent_rowData _ rfl r, ih _ rfl]
      simp [List.append_assoc]
      omega

lemma runStream_complete (rows : List Row) :
    runStream (completeEvents rows) =
      { count := rows.length,
        writes := rows.map (· ++ "\n") ++ [metaLine rows.length ++ "\n"],
        released := 1, resEnded := true, destroyed := false } := by
  unfold runStream completeEvents
  rw [List.foldl_append, foldl_rowData _ _ rfl]
  simp [handleEvent, initialState]

lemma runStream_failed (rows : List Row) (msg : String) :
    runStream (failedEvents rows msg) =
      { count := rows.length,
        writes := rows.map (· ++ "\n") ++ [errorLine msg ++ "\n"],
        released := 1, resEnded := true, destroyed := false } := by
  unfold runStream failedEvents
  rw [List.foldl_append, foldl_rowData _ _ rfl]
  simp [handleEvent, initialState]

lemma runStream_abort (rows : List Row) :
    runStream (abortEvents rows) =
      { count := rows.length, writes := rows.map (· ++ "\n"),
        released := 0, resEnded := false, destroyed := true } := by
  unfold runStream abortEvents
  rw [List.foldl_append, foldl_rowData _ _ rfl]
  simp [handleEvent, initialState]

/-- C1 (code evaluation): the registered handlers release the dedicated
connection exactly once on COMPLETE and on FAILED, but zero times on
ABORTED — the `close` handler only destroys the stream, and a destroyed
stream emits neither `end` nor `error`, so the release never runs (even if
the source were to signal exhaustion afterwards). -/
theorem stream_release_per_terminal (rows : List Row) (msg : String) :
    (runStream (completeEvents rows)).released = 1 ∧
    (runStream (failedEvents rows msg)).released = 1 ∧
    (runStream (abortEvents rows)).released = 0 ∧
    (runStream (abortEvents rows ++ [StreamEvent.streamEnd])).released = 0 := by
  refine ⟨?_, ?_, ?_, ?_⟩
  · rw [runStream_complete]
  · rw [runStream_failed]
  · rw [runStream_abort]
  · unfold runStream
    rw [List.foldl_append]
    have : (abortEvents rows).foldl handleEvent initialState = runStream (abortEvents rows) := rfl
    rw [this, runStream_abort]
    simp [handleEvent]

/-- C8: on COMPLETE after `N` delivered rows (including `N = 0`), the
response consists of the `N` data lines followed by exactly one trailer
line carrying `total_streamed: N` and `complete: true`, the row counter
equals `N`, and the transport is then closed. -/
theorem stream_complete_output (rows : List Row) :
    (runStream (completeEvents rows)).writes =
      rows.map (· ++ "\n") ++ [metaLine rows.length ++ "\n"] ∧
    (runStream (completeEvents rows)).count = rows.length ∧
    (runStream (completeEvents rows)).resEnded = true := by
  rw [runStream_complete]
  exact ⟨rfl, rfl, rfl⟩

/-- C9: on FAILED after `N` flushed rows, the response consists of exactly
those `N` data lines followed by exactly one `_error` line (nothing is
retracted), the transport is closed, and the connection is released
exactly once. -/
theorem stream_failed_output (rows : List Row) (msg : String) :
    (runStream (failedEvents rows msg)).writes =
      rows.map (· ++ "\n") ++ [errorLine msg ++ "\n"] ∧
    (runStream (failedEvents rows msg)).released = 1 ∧
    (runStream (failedEvents rows msg)).resEnded = true := by
  rw [runStream_failed]
  exact ⟨rfl, rfl, rfl⟩

/-! ## Pagination limit claim theorems -/

/-- Modelled from the claim's general sentence for C10: parse the limit as
an integer, default to 100 only when absent or unparseable, then clamp
into [1, 10000]. Compared against the source-side `parseLimit`. -/
def claimLimitRule (limitStr : Option String) : Int :=
  min (max 1 (match limitStr.bind jsParseInt with
    | some n => n
    | none => DEFAULT_LIMIT)) MAX_LIMIT

/-- C10 (counterexample): `"0"` parses successfully to `0`, so the claim's
general parse-then-clamp rule yields 1, but `parseLimit` treats the falsy
`0` like a parse failure and returns the 100 default. -/
theorem parseLimit_zero_cex :
    parseLimit (some "0") = 100 ∧ claimLimitRule (some "0") = 1 ∧
    parseLimit (some "0") ≠ claimLimitRule (some "0") := by
  decide

/-- C10 (amended): all the enumerated examples hold, the result is always
clamped into [1, 10000], and the parsed value is used unless it is absent,
unparseable, or zero — in which cases the 100 default applies (JS
`parseInt(s) || 100` treats a parsed `0` like a failure). -/
theorem parseLimit_amended (s : Option String) :
    (1 ≤ parseLimit s ∧ parseLimit s ≤ 10000) ∧
    (s.bind jsParseInt = none → parseLimit s = 100) ∧
    (s.bind jsParseInt = some 0 → parseLimit s = 100) ∧
    (∀ n : Int, s.bind jsParseInt = some n → n ≠ 0 →
      parseLimit s = min (max 1 n) 10000) ∧
    parseLimit (some "0") = 100 ∧ parseLimit (some "") = 100 ∧
    parseLimit none = 100 ∧ parseLimit (some "999999") = 10000 ∧
    parseLimit (some "-5") = 1 := by
  refine ⟨⟨?_, ?_⟩, ?_, ?_, ?_, by decide, by decide, by decide, by decide, by decide⟩
  · exact le_min (le_max_left _ _) (by norm_num [MAX_LIMIT])
  · exact min_le_right _ _
  · intro h
    norm_num [parseLimit, jsOrNum, h, DEFAULT_LIMIT, MAX_LIMIT]
  · intro h
    norm_num [parseLimit, jsOrNum, h, DEFAULT_LIMIT, MAX_LIMIT]
  · intro n h hn
    simp [parseLimit, jsOrNum, h, hn, MAX_LIMIT]

/-- C10 (witness): at `"999999"` the parsed value is nonzero and the
clamped form from the amended rule applies. -/
theorem parseLimit_amended_witness :
    parseLimit (some "999999") = min (max 1 (999999 : Int)) 10000 ∧
    (999999 : Int) ≠ 0 :=
  ⟨(parseLimit_amended (some "999999")).2.2.2.1 999999 (by decide) (by decide),
   by decide⟩

/-! ## Statistics aggregator lemmas and claim theorem -/

/-- What `SELECT col, COUNT(*) ... WHERE col IS NOT NULL GROUP BY col
ORDER BY count DESC LIMIT 10` guarantees about its result list: at most 10
entries, descending counts, every entry a non-null value with its exact
row count, and no omitted value outcounting a listed one. -/
def topTenSpec (xs : List (Option String)) (out : List (String × Nat)) : Prop :=
  out.length ≤ 10 ∧
  List.Sorted byCountDesc out ∧
  (∀ p ∈ out, p.1 ∈ nonNullValues xs ∧ p.2 = (nonNullValues xs).count p.1) ∧
  (∀ v ∈ nonNullValues xs, v ∉ out.map Prod.fst →
    ∀ p ∈ out, (nonNullValues xs).count v ≤ p.2)

lemma mem_groupCounts (xs : List (Option String)) (p : String × Nat)
    (hp : p ∈ groupCounts xs) :
    p.1 ∈ nonNullValues xs ∧ p.2 = (nonNullValues xs).count p.1 := by
  unfold groupCounts at hp
  obtain ⟨v, hv, rfl⟩ := List.mem_map.mp hp
  exact ⟨List.mem_dedup.mp hv, rfl⟩

lemma groupCounts_mem (xs : List (Option String)) (v : String)
    (hv : v ∈ nonNullValues xs) :
    (v, (nonNullValues xs).count v) ∈ groupCounts xs := by
  unfold groupCounts
  exact List.mem_map.mpr ⟨v, List.mem_dedup.mpr hv, rfl⟩

lemma topTen_spec (xs : List (Option String)) : topTenSpec xs (topTen xs) := by
  have hsorted := List.sorted_insertionSort byCountDesc (groupCounts xs)
  have hperm := List.perm_insertionSort byCountDesc (groupCounts xs)
  refine ⟨?_, ?_, ?_, ?_⟩
  · unfold topTen
    rw [List.length_take]
    exact min_le_left _ _
  · exact List.Pairwise.sublist (List.take_sublist _ _) hsorted
  · intro p hp
    unfold topTen at hp
    exact mem_groupCounts xs p (hperm.mem_iff.mp ((List.take_sublist _ _).subset hp))
  · intro v hv hnot p hp
    unfold topTen at hp
    have hvl : (v, (nonNullValues xs).count v) ∈
        List.insertionSort byCountDesc (groupCounts xs) :=
      hperm.mem_iff.mpr (groupCounts_mem xs v hv)
    have hsplit : (v, (nonNullValues xs).count v) ∈
        (List.insertionSort byCountDesc (groupCounts xs)).take 10 ++
          (List.insertionSort byCountDesc (groupCounts xs)).drop 10 := by
      rw [List.take_append_drop]
      exact hvl
    have hvdrop : (v, (nonNullValues xs).count v) ∈
        (List.insertionSort byCountDesc (groupCounts xs)).drop 10 := by
      rcases List.mem_append.mp hsplit with h | h
      · exact absurd (List.mem_map.mpr ⟨_, h, rfl⟩) hnot
      · exact h
    exact hsorted.rel_of_mem_take_of_mem_drop hp hvdrop

/-- C7 (code evaluation): on a three-row table with two distinct cities,
types and county codes, the store's LIMIT-10 answer for each aggregation
holds both entries (e.g. `("LA", 1)` alongside `("NY", 2)` for cities),
but `getStats` — whose `const [cityStats] = await query(...)` destructures
the already-unwrapped row list a second time — returns only the single
top-1 row for each aggregation, not a list of up to 10 entries. The
whole-table total is still correct. -/
theorem getStats_top1_only :
    (getStats [⟨some "NY", some "cafe", some "36061"⟩,
               ⟨some "NY", some "cafe", some "36061"⟩,
               ⟨some "LA", some "bar", some "06037"⟩]).total_places = 3 ∧
    (getStats [⟨some "NY", some "cafe", some "36061"⟩,
               ⟨some "NY", some "cafe", some "36061"⟩,
               ⟨some "LA", some "bar", some "06037"⟩]).top_cities
      = some ("NY", 2) ∧
    (getStats [⟨some "NY", some "cafe", some "36061"⟩,
               ⟨some "NY", some "cafe", some "36061"⟩,
               ⟨some "LA", some "bar", some "06037"⟩]).top_types
      = some ("cafe", 2) ∧
    (getStats [⟨some "NY", some "cafe", some "36061"⟩,
               ⟨some "NY", some "cafe", some "36061"⟩,
               ⟨some "LA", some "bar", some "06037"⟩]).top_county_codes
      = some ("36061", 2) ∧
    (topTen (([⟨some "NY", some "cafe", some "36061"⟩,
               ⟨some "NY", some "cafe", some "36061"⟩,
               ⟨some "LA", some "bar", some "06037"⟩] : List StatsRow).map
        (·.city))).length = 2 ∧
    ("LA", 1) ∈ topTen (([⟨some "NY", some "cafe", some "36061"⟩,
               ⟨some "NY", some "cafe", some "36061"⟩,
               ⟨some "LA", some "bar", some "06037"⟩] : List StatsRow).map
        (·.city)) := by
  refine ⟨by decide, by decide, by decide, by decide, by decide, by decide⟩

/-- C6 (code evaluation): a `reviews` value that fails to parse as a
number is coerced to `NaN` and bound as a query parameter — the request is
not rejected with a validation error before touching the store. -/
theorem malformed_numeric_bound_as_nan :
    buildWhereClause (extractFilters (fun k => if k = "reviews" then some "abc" else none)) =
      ("WHERE reviews = ?", [Param.num JSNum.nan]) := by
  decide

end MapsApi
